import Mathlib

/-!
# BistroOps: a shallow embedding of `app.py`

A Lean model of the staff-operations Flask application: the six entity
tables, the per-route handlers (create / list / delete / toggle) and the
`role_required` gate, translated route by route from the source.  External
collaborators (the ISO date-time parser, the password hasher and the
`.date()` projection) are taken as function parameters, since the program
only uses their results opaquely.  Machine behaviour that matters to the
routes is made explicit: a missing mandatory form field or a failed
`int` / `float` / `fromisoformat` parse aborts the request with an
internal error before any row is written, and `get_or_404` yields a
not-found response.
-/

namespace Bistro

/-- An HTTP form: an association list from field name to submitted value,
as exposed by `request.form`. -/
abbrev Form := List (String × String)

/-- `request.form.get(k)`: the first value bound to `k`, if any. -/
def Form.get? (f : Form) (k : String) : Option String :=
  (f.find? (fun p => p.1 == k)).map (fun p => p.2)

/-- `request.form.get(k, d)`: lookup with a default. -/
def Form.getD (f : Form) (k d : String) : String :=
  (f.get? k).getD d

/-- `k in request.form`. -/
def Form.hasKey (f : Form) (k : String) : Bool :=
  (f.get? k).isSome

/-- The observable result of one request: a redirect to a page carrying
the flash messages emitted during the request, an uncaught error
(`KeyError` / `ValueError` / constraint violation surfacing as a raw
HTTP error page), or the `get_or_404` not-found response. -/
inductive Outcome where
  | redirect (page : String) (flashes : List (String × String))
  | internalError
  | notFound
deriving Repr, DecidableEq

/-- Accumulate a non-empty run of decimal digits into a number; any
non-digit character makes the parse fail. -/
def parseDigits : List Char → Option Nat → Option Nat
  | [], acc => acc
  | c :: cs, acc =>
    if c.isDigit then
      parseDigits cs (some ((acc.getD 0) * 10 + (c.toNat - 48)))
    else none

/-- An optionally signed run of decimal digits, as an integer. -/
def parseSignedDigits : List Char → Option Int
  | '-' :: rest => (parseDigits rest none).map (fun n => -(n : Int))
  | '+' :: rest => (parseDigits rest none).map (fun n => (n : Int))
  | cs => (parseDigits cs none).map (fun n => (n : Int))

/-- Split a character list at every occurrence of `sep`. -/
def splitOnChar (sep : Char) : List Char → List (List Char)
  | [] => [[]]
  | c :: cs =>
    if c = sep then [] :: splitOnChar sep cs
    else
      match splitOnChar sep cs with
      | [] => [[c]]
      | h :: t => (c :: h) :: t

/-- Python `int(s)` on a form string: parses an optionally signed decimal
integer, raising (here: `none`) otherwise. -/
def pyInt (s : String) : Option Int :=
  parseSignedDigits s.toList

/-- Python `float(s)` on a plain decimal literal `[-]digits[.digits]`,
`none` when unparseable; decimal fractions are represented exactly as
rationals. -/
def pyFloat (s : String) : Option ℚ :=
  match splitOnChar '.' s.toList with
  | [ip] => (parseSignedDigits ip).map (fun i => (i : ℚ))
  | [ip, fp] =>
    match parseSignedDigits ip, parseDigits fp none with
    | some i, some f =>
      let mag : ℚ := (i.natAbs : ℚ) + (f : ℚ) / ((10 : ℚ) ^ fp.length)
      some (if ip.head? = some '-' then -mag else mag)
    | _, _ => none
  | _ => none

/-- `User` row (`app.py` lines 20–27). -/
structure User where
  id : Int
  username : String
  full_name : String
  role : String
  password_hash : String
deriving Repr, DecidableEq

/-- `Shift` row; the source column `end` is a Lean keyword and is written
`«end»`. -/
structure Shift where
  id : Int
  employee : String
  role : String
  start : Int
  «end» : Int
deriving Repr, DecidableEq

/-- `Reservation` row; the source column `at` is a Lean keyword and is
written `«at»`. -/
structure Reservation where
  id : Int
  customer : String
  size : Int
  «at» : Int
  notes : String
deriving Repr, DecidableEq

/-- `ShiftReport` row. -/
structure ShiftReport where
  id : Int
  date : Int
  lead_id : Int
  revenue : ℚ
  issues : String
  notes : String
deriving Repr, DecidableEq

/-- `TimeEntry` row. -/
structure TimeEntry where
  id : Int
  user_id : Int
  start : Int
  «end» : Int
  note : String
deriving Repr, DecidableEq

/-- `ClothingDeposit` row. -/
structure ClothingDeposit where
  id : Int
  user_id : Int
  item : String
  size : String
  amount : ℚ
  date : Int
  returned : Bool
  notes : String
deriving Repr, DecidableEq

/-- The relational store: one list per table, plus the per-table
auto-increment counters that assign primary keys on insert. -/
structure DB where
  users : List User
  shifts : List Shift
  reservations : List Reservation
  reports : List ShiftReport
  timeEntries : List TimeEntry
  deposits : List ClothingDeposit
  nextUserId : Int
  nextShiftId : Int
  nextResId : Int
  nextRepId : Int
  nextTimeId : Int
  nextDepId : Int
deriving Repr, DecidableEq

/-- Update the first element satisfying `p` (the single row fetched by a
primary-key query) by `f`, leaving the rest of the list untouched. -/
def updateFirst (p : α → Bool) (f : α → α) : List α → List α
  | [] => []
  | x :: xs => if p x then f x :: xs else x :: updateFirst p f xs

/-- `role_required(*roles)` (`app.py` lines 76–87): run the wrapped
handler when the actor's role is listed, otherwise flash
"Keine Berechtigung." and redirect to the dashboard without touching
the store. -/
def role_required (roles : List String) (actor : User)
    (handler : DB → DB × Outcome) (st : DB) : DB × Outcome :=
  if actor.role ∈ roles then handler st
  else (st, .redirect "dashboard" [("error", "Keine Berechtigung.")])

/-! ## Create / delete / toggle handlers, one per route

Each handler receives the authenticated actor (`current_user`), the form,
and the store, and returns the updated store with the outcome.  The ISO
date-time parser `fromiso` and the `.date()` projection `dtDate` are
explicit parameters. -/

/-- POST `/shifts` (lines 144–152): inline role check, then insert a
`Shift` parsed from the form. -/
def shifts_post (fromiso : String → Option Int) (actor : User)
    (form : Form) (st : DB) : DB × Outcome :=
  if ¬ (actor.role ∈ (["shift_lead", "manager"] : List String)) then
    (st, .redirect "shifts"
      [("error", "Nur Schichtleitung/Manager dürfen Schichten anlegen.")])
  else
    match form.get? "employee", form.get? "start", form.get? "end" with
    | some employee, some startStr, some endStr =>
      match fromiso startStr, fromiso endStr with
      | some s, some e =>
        let sh : Shift :=
          { id := st.nextShiftId, employee := employee,
            role := form.getD "role" "", start := s, «end» := e }
        ({ st with shifts := st.shifts ++ [sh],
                   nextShiftId := st.nextShiftId + 1 },
         .redirect "shifts" [])
      | _, _ => (st, .internalError)
    | _, _, _ => (st, .internalError)

/-- POST `/shifts/<id>/delete` body (line 160), behind
`role_required("shift_lead","manager")`. -/
def shifts_delete_h (id : Int) (st : DB) : DB × Outcome :=
  match st.shifts.find? (fun s => s.id == id) with
  | none => (st, .notFound)
  | some _ =>
    ({ st with shifts := st.shifts.eraseP (fun s => s.id == id) },
     .redirect "shifts" [])

/-- POST `/reservations` body (lines 168–174), behind
`role_required("shift_lead","manager")`.  Note `request.form["size"]`
raises when the field is absent; a blank value falls back to `2` via
`or 2`. -/
def reservations_post (fromiso : String → Option Int)
    (form : Form) (st : DB) : DB × Outcome :=
  match form.get? "customer", form.get? "size", form.get? "at" with
  | some customer, some sizeStr, some atStr =>
    let sizeVal : Option Int :=
      if sizeStr = "" then some 2 else pyInt sizeStr
    match sizeVal, fromiso atStr with
    | some size, some atv =>
      let r : Reservation :=
        { id := st.nextResId, customer := customer, size := size,
          «at» := atv, notes := form.getD "notes" "" }
      ({ st with reservations := st.reservations ++ [r],
                 nextResId := st.nextResId + 1 },
       .redirect "reservations" [])
    | _, _ => (st, .internalError)
  | _, _, _ => (st, .internalError)

/-- POST `/reservations/<id>/delete` body (line 182). -/
def res_delete_h (id : Int) (st : DB) : DB × Outcome :=
  match st.reservations.find? (fun r => r.id == id) with
  | none => (st, .notFound)
  | some _ =>
    ({ st with reservations := st.reservations.eraseP (fun r => r.id == id) },
     .redirect "reservations" [])

/-- POST `/reports` body (lines 190–197), behind
`role_required("shift_lead","manager")`.  `lead_id` is always the actor's
id; `revenue` defaults to `0` when absent or blank
(`float(request.form.get("revenue",0) or 0)`). -/
def reports_post (fromiso : String → Option Int) (dtDate : Int → Int)
    (actor : User) (form : Form) (st : DB) : DB × Outcome :=
  match form.get? "date" with
  | some dateStr =>
    let revVal : Option ℚ :=
      match form.get? "revenue" with
      | none => some 0
      | some s => if s = "" then some 0 else pyFloat s
    match fromiso dateStr, revVal with
    | some dt, some rev =>
      let rep : ShiftReport :=
        { id := st.nextRepId, date := dtDate dt, lead_id := actor.id,
          revenue := rev, issues := form.getD "issues" "",
          notes := form.getD "notes" "" }
      ({ st with reports := st.reports ++ [rep],
                 nextRepId := st.nextRepId + 1 },
       .redirect "reports" [])
    | _, _ => (st, .internalError)
  | none => (st, .internalError)

/-- POST `/reports/<id>/delete` body (line 205). -/
def reports_delete_h (id : Int) (st : DB) : DB × Outcome :=
  match st.reports.find? (fun r => r.id == id) with
  | none => (st, .notFound)
  | some _ =>
    ({ st with reports := st.reports.eraseP (fun r => r.id == id) },
     .redirect "reports" [])

/-- POST `/hours` (lines 212–228): `user_id = int(request.form["user_id"])`
first; a waiter supplying a foreign `user_id` is flashed and redirected;
the vestigial `allowed` variable of the source is `True` on both
branches, so every remaining request inserts. -/
def hours_post (fromiso : String → Option Int) (actor : User)
    (form : Form) (st : DB) : DB × Outcome :=
  match form.get? "user_id" with
  | none => (st, .internalError)
  | some uidStr =>
    match pyInt uidStr with
    | none => (st, .internalError)
    | some user_id =>
      if actor.role = "waiter" ∧ user_id ≠ actor.id then
        (st, .redirect "hours"
          [("error", "Kellner dürfen nur eigene Stunden eintragen.")])
      else
        let allowed := if actor.role = "waiter" then true else true
        if allowed then
          match form.get? "start", form.get? "end" with
          | some startStr, some endStr =>
            match fromiso startStr, fromiso endStr with
            | some s, some e =>
              let t : TimeEntry :=
                { id := st.nextTimeId, user_id := user_id, start := s,
                  «end» := e, note := form.getD "note" "" }
              ({ st with timeEntries := st.timeEntries ++ [t],
                         nextTimeId := st.nextTimeId + 1 },
               .redirect "hours" [])
            | _, _ => (st, .internalError)
          | _, _ => (st, .internalError)
        else (st, .redirect "hours" [])

/-- POST `/hours/<id>/delete` (lines 240–247): fetch the entry
(`get_or_404`); a waiter who does not own it is flashed and redirected;
the entry is deleted when the actor is shift lead / manager or owns it;
any other actor falls through to a silent redirect. -/
def hours_delete (actor : User) (id : Int) (st : DB) : DB × Outcome :=
  match st.timeEntries.find? (fun t => t.id == id) with
  | none => (st, .notFound)
  | some t =>
    if actor.role = "waiter" ∧ t.user_id ≠ actor.id then
      (st, .redirect "hours"
        [("error", "Kellner dürfen nur eigene Einträge löschen.")])
    else if actor.role ∈ (["shift_lead", "manager"] : List String)
        ∨ t.user_id = actor.id then
      ({ st with timeEntries := st.timeEntries.eraseP (fun x => x.id == id) },
       .redirect "hours" [])
    else
      (st, .redirect "hours" [])

/-- POST `/deposit` body (lines 255–263), behind
`role_required("manager")`.  `user_id`, `item` and `date` are mandatory;
`amount` defaults to `0` when absent or blank; `returned` is the presence
of the checkbox field. -/
def deposit_post (fromiso : String → Option Int) (dtDate : Int → Int)
    (form : Form) (st : DB) : DB × Outcome :=
  match form.get? "user_id", form.get? "item", form.get? "date" with
  | some uidStr, some item, some dateStr =>
    let amtVal : Option ℚ :=
      match form.get? "amount" with
      | none => some 0
      | some s => if s = "" then some 0 else pyFloat s
    match pyInt uidStr, amtVal, fromiso dateStr with
    | some user_id, some amt, some dt =>
      let d : ClothingDeposit :=
        { id := st.nextDepId, user_id := user_id, item := item,
          size := form.getD "size" "", amount := amt, date := dtDate dt,
          returned := form.hasKey "returned", notes := form.getD "notes" "" }
      ({ st with deposits := st.deposits ++ [d],
                 nextDepId := st.nextDepId + 1 },
       .redirect "deposit" [])
    | _, _, _ => (st, .internalError)
  | _, _, _ => (st, .internalError)

/-- POST `/deposit/<id>/toggle` body (lines 272–275): fetch the deposit
and flip its `returned` flag in place. -/
def deposit_toggle_h (id : Int) (st : DB) : DB × Outcome :=
  match st.deposits.find? (fun d => d.id == id) with
  | none => (st, .notFound)
  | some _ =>
    let newDeps :=
      updateFirst (fun d => d.id == id)
        (fun d => { d with returned := !d.returned }) st.deposits
    ({ st with deposits := newDeps }, .redirect "deposit" [])

/-- POST `/deposit/<id>/delete` body (line 281). -/
def deposit_delete_h (id : Int) (st : DB) : DB × Outcome :=
  match st.deposits.find? (fun d => d.id == id) with
  | none => (st, .notFound)
  | some _ =>
    ({ st with deposits := st.deposits.eraseP (fun d => d.id == id) },
     .redirect "deposit" [])

/-- POST `/users` body (lines 290–295), behind `role_required("manager")`:
build the `User` from the form — the role is whatever string the client
sent, defaulting to `"waiter"` — hash the mandatory password, and commit;
a duplicate username violates the UNIQUE constraint and surfaces as a raw
error with nothing inserted. -/
def users_post (pwhash : String → String) (form : Form)
    (st : DB) : DB × Outcome :=
  match form.get? "username", form.get? "password" with
  | some username, some password =>
    if st.users.any (fun u => u.username == username) then
      (st, .internalError)
    else
      let u : User :=
        { id := st.nextUserId, username := username,
          full_name := form.getD "full_name" "",
          role := form.getD "role" "waiter",
          password_hash := pwhash password }
      ({ st with users := st.users ++ [u],
                 nextUserId := st.nextUserId + 1 },
       .redirect "users" [])
  | _, _ => (st, .internalError)

/-- POST `/users/<id>/delete` body (lines 302–307), behind
`role_required("manager")`: self-deletion is flashed and refused before
the row is even fetched; otherwise the row is fetched (`get_or_404`) and
deleted. -/
def users_delete_h (actor : User) (id : Int) (st : DB) : DB × Outcome :=
  if id = actor.id then
    (st, .redirect "users" [("error", "Eigenen Account nicht löschen.")])
  else
    match st.users.find? (fun u => u.id == id) with
    | none => (st, .notFound)
    | some _ =>
      ({ st with users := st.users.eraseP (fun u => u.id == id) },
       .redirect "users" [])

/-! ## Full routes: decorator composition -/

/-- POST `/reservations` as routed (`role_required` then the handler). -/
def reservations_route (fromiso : String → Option Int) (actor : User)
    (form : Form) (st : DB) : DB × Outcome :=
  role_required ["shift_lead", "manager"] actor
    (reservations_post fromiso form) st

/-- POST `/reports` as routed. -/
def reports_route (fromiso : String → Option Int) (dtDate : Int → Int)
    (actor : User) (form : Form) (st : DB) : DB × Outcome :=
  role_required ["shift_lead", "manager"] actor
    (reports_post fromiso dtDate actor form) st

/-- POST `/shifts/<id>/delete` as routed. -/
def shifts_delete_route (actor : User) (id : Int) (st : DB) : DB × Outcome :=
  role_required ["shift_lead", "manager"] actor (shifts_delete_h id) st

/-- POST `/reservations/<id>/delete` as routed. -/
def res_delete_route (actor : User) (id : Int) (st : DB) : DB × Outcome :=
  role_required ["shift_lead", "manager"] actor (res_delete_h id) st

/-- POST `/reports/<id>/delete` as routed. -/
def reports_delete_route (actor : User) (id : Int) (st : DB) : DB × Outcome :=
  role_required ["shift_lead", "manager"] actor (reports_delete_h id) st

/-- POST `/deposit` as routed. -/
def deposit_route (fromiso : String → Option Int) (dtDate : Int → Int)
    (actor : User) (form : Form) (st : DB) : DB × Outcome :=
  role_required ["manager"] actor (deposit_post fromiso dtDate form) st

/-- POST `/deposit/<id>/toggle` as routed. -/
def deposit_toggle_route (actor : User) (id : Int) (st : DB) : DB × Outcome :=
  role_required ["manager"] actor (deposit_toggle_h id) st

/-- POST `/deposit/<id>/delete` as routed. -/
def deposit_delete_route (actor : User) (id : Int) (st : DB) : DB × Outcome :=
  role_required ["manager"] actor (deposit_delete_h id) st

/-- POST `/users` as routed. -/
def users_route (pwhash : String → String) (actor : User)
    (form : Form) (st : DB) : DB × Outcome :=
  role_required ["manager"] actor (users_post pwhash form) st

/-- POST `/users/<id>/delete` as routed. -/
def users_delete_route (actor : User) (id : Int) (st : DB) : DB × Outcome :=
  role_required ["manager"] actor (users_delete_h actor id) st

/-! ## List (GET) queries

SQL `ORDER BY` is modelled as sorting the table by the corresponding
relation; `insertionSort` stands in for the database's (stable) sort. -/

/-- Code-point-wise strict lexicographic order on character lists: the
binary collation SQLite applies to text columns. -/
def charListLt : List Char → List Char → Bool
  | [], [] => false
  | [], _ :: _ => true
  | _ :: _, [] => false
  | a :: as, b :: bs =>
    a.toNat < b.toNat || (a.toNat = b.toNat && charListLt as bs)

/-- Strict collation order on strings. -/
def strLt (a b : String) : Prop :=
  charListLt a.data b.data = true

/-- Non-strict collation order on strings. -/
def strLe (a b : String) : Prop :=
  charListLt b.data a.data = false

instance : DecidableRel strLt :=
  fun a b => inferInstanceAs (Decidable (_ = true))

instance : DecidableRel strLe :=
  fun a b => inferInstanceAs (Decidable (_ = false))

/-- `charListLt` is irreflexive. -/
theorem charListLt_irrefl : ∀ x : List Char, charListLt x x = false
  | [] => rfl
  | a :: as => by
    simp [charListLt, charListLt_irrefl as]

/-- `charListLt` is transitive. -/
theorem charListLt_trans : ∀ x y z : List Char,
    charListLt x y = true → charListLt y z = true → charListLt x z = true
  | [], _ :: _, _ :: _, _, _ => rfl
  | [], [], _, h, _ => by simp [charListLt] at h
  | [], _ :: _, [], _, h => by simp [charListLt] at h
  | _ :: _, [], _, h, _ => by simp [charListLt] at h
  | _ :: _, _ :: _, [], _, h => by simp [charListLt] at h
  | a :: as, b :: bs, c :: cs, h1, h2 => by
    simp only [charListLt, Bool.or_eq_true, Bool.and_eq_true,
      decide_eq_true_eq] at h1 h2 ⊢
    rcases h1 with h1 | ⟨e1, r1⟩
    · rcases h2 with h2 | ⟨e2, _⟩
      · exact Or.inl (lt_trans h1 h2)
      · exact Or.inl (e2 ▸ h1)
    · rcases h2 with h2 | ⟨e2, r2⟩
      · exact Or.inl (e1 ▸ h2)
      · exact Or.inr ⟨e1.trans e2, charListLt_trans as bs cs r1 r2⟩

/-- Two lists incomparable under `charListLt` are equal. -/
theorem charListLt_connex : ∀ x y : List Char,
    charListLt x y = false → charListLt y x = false → x = y
  | [], [] => fun _ _ => rfl
  | [], _ :: _ => by intro h _; simp [charListLt] at h
  | _ :: _, [] => by intro _ h; simp [charListLt] at h
  | a :: as, b :: bs => by
    intro h1 h2
    simp only [charListLt, Bool.or_eq_false_iff, Bool.and_eq_false_iff,
      decide_eq_false_iff_not, decide_eq_true_eq] at h1 h2
    have hn : a.toNat = b.toNat := by omega
    have hab : a = b := Char.ext (UInt32.ext hn)
    rcases h1.2 with e1 | r1
    · exact absurd hn e1
    · rcases h2.2 with e2 | r2
      · exact absurd hn.symm e2
      · exact hab ▸ congrArg (a :: ·) (charListLt_connex as bs r1 r2)

/-- `strLe` is transitive. -/
theorem strLe_trans {a b c : String} (h1 : strLe a b) (h2 : strLe b c) :
    strLe a c := by
  unfold strLe at *
  by_cases h : charListLt c.data a.data = true
  · by_cases hbc : charListLt b.data c.data = true
    · have := charListLt_trans _ _ _ hbc h
      simp [h1] at this
    · have e := charListLt_connex b.data c.data (by simpa using hbc) h2
      rw [← e] at h
      simp [h1] at h
  · simpa using h

/-- `strLe` is total. -/
theorem strLe_total (a b : String) : strLe a b ∨ strLe b a := by
  unfold strLe
  by_cases h : charListLt b.data a.data = true
  · right
    by_cases h2 : charListLt a.data b.data = true
    · have := charListLt_trans _ _ _ h h2
      rw [charListLt_irrefl] at this
      cases this
    · simpa using h2
  · left
    simpa using h

/-- Incomparable strings are equal. -/
theorem strLt_connex {a b : String} (h1 : ¬ strLt a b) (h2 : ¬ strLt b a) :
    a = b := by
  unfold strLt at h1 h2
  have e := charListLt_connex a.data b.data (by simpa using h1)
    (by simpa using h2)
  cases a
  cases b
  exact congrArg String.mk e

/-- `ORDER BY f DESC` on an integer-valued column `f`. -/
def descBy (f : α → Int) (a b : α) : Prop :=
  f b ≤ f a

/-- `ORDER BY f ASC` on a string-valued column `f`. -/
def ascByStr (f : α → String) (a b : α) : Prop :=
  strLe (f a) (f b)

/-- `ORDER BY role DESC, username ASC` (the `/team` query, line 137). -/
def teamRel (a b : User) : Prop :=
  strLt b.role a.role ∨ (a.role = b.role ∧ strLe a.username b.username)

instance (f : α → Int) : DecidableRel (descBy f) :=
  fun a b => inferInstanceAs (Decidable (f b ≤ f a))

instance (f : α → Int) : IsTrans α (descBy f) :=
  ⟨fun _ _ _ h1 h2 => le_trans h2 h1⟩

instance (f : α → Int) : IsTotal α (descBy f) :=
  ⟨fun a b => le_total (f b) (f a)⟩

instance (f : α → String) : DecidableRel (ascByStr f) :=
  fun a b => inferInstanceAs (Decidable (strLe (f a) (f b)))

instance (f : α → String) : IsTrans α (ascByStr f) :=
  ⟨fun _ _ _ h1 h2 => strLe_trans h1 h2⟩

instance (f : α → String) : IsTotal α (ascByStr f) :=
  ⟨fun a b => strLe_total (f a) (f b)⟩

instance : DecidableRel teamRel :=
  fun a b =>
    inferInstanceAs (Decidable (strLt b.role a.role ∨
      (a.role = b.role ∧ strLe a.username b.username)))

instance : IsTrans User teamRel := by
  constructor
  intro a b c hab hbc
  rcases hab with h1 | ⟨e1, u1⟩ <;> rcases hbc with h2 | ⟨e2, u2⟩
  · exact Or.inl (charListLt_trans _ _ _ h2 h1)
  · exact Or.inl (e2 ▸ h1)
  · exact Or.inl (by rw [e1]; exact h2)
  · exact Or.inr ⟨e1.trans e2, strLe_trans u1 u2⟩

instance : IsTotal User teamRel := by
  constructor
  intro a b
  by_cases h : a.role = b.role
  · rcases strLe_total a.username b.username with hu | hu
    · exact Or.inl (Or.inr ⟨h, hu⟩)
    · exact Or.inr (Or.inr ⟨h.symm, hu⟩)
  · by_cases hr : strLt b.role a.role
    · exact Or.inl (Or.inl hr)
    · by_cases hr2 : strLt a.role b.role
      · exact Or.inr (Or.inl hr2)
      · exact absurd (strLt_connex hr2 hr) h

/-- GET `/team` (line 137): all users, role descending then username
ascending. -/
def team_list (st : DB) : List User :=
  List.insertionSort teamRel st.users

/-- GET `/shifts` (line 153): shifts by start descending. -/
def shifts_list (st : DB) : List Shift :=
  List.insertionSort (descBy Shift.start) st.shifts

/-- GET `/reservations` (line 175): reservations by `at` descending. -/
def reservations_list (st : DB) : List Reservation :=
  List.insertionSort (descBy Reservation.«at») st.reservations

/-- GET `/reports` (line 198): reports by date descending. -/
def reports_list (st : DB) : List ShiftReport :=
  List.insertionSort (descBy ShiftReport.date) st.reports

/-- GET `/hours` data (lines 230–235): a waiter sees only their own
entries; everyone's view is ordered by start descending. -/
def hours_list (actor : User) (st : DB) : List TimeEntry :=
  if actor.role = "waiter" then
    List.insertionSort (descBy TimeEntry.start)
      (st.timeEntries.filter (fun t => t.user_id == actor.id))
  else
    List.insertionSort (descBy TimeEntry.start) st.timeEntries

/-- GET `/hours` user drop-down (lines 232, 235): the waiter alone, or
all users by username ascending. -/
def hours_users (actor : User) (st : DB) : List User :=
  if actor.role = "waiter" then [actor]
  else List.insertionSort (ascByStr User.username) st.users

/-- GET `/deposit` data (line 264): deposits by date descending. -/
def deposit_list (st : DB) : List ClothingDeposit :=
  List.insertionSort (descBy ClothingDeposit.date) st.deposits

/-- GET `/deposit` user drop-down (line 265): users by username
ascending. -/
def deposit_users (st : DB) : List User :=
  List.insertionSort (ascByStr User.username) st.users

/-- GET `/users` (line 296): users by username ascending. -/
def users_list (st : DB) : List User :=
  List.insertionSort (ascByStr User.username) st.users

/-! ## Concrete fixtures

Sample actors, parser instantiations and stores used to exercise the
theorems on concrete inputs. -/

/-- A sample ISO parser: the three date-time strings used in the concrete
scenarios parse to fixed instants, everything else is unparseable. -/
def fiStd : String → Option Int := fun s =>
  if s = "2024-01-01T09:00" then some 540
  else if s = "2024-01-01T17:00" then some 1020
  else if s = "2024-02-01" then some 86400
  else none

/-- A sample `.date()` projection. -/
def idDate : Int → Int := fun d => d

/-- A sample password hasher. -/
def hashStd : String → String := fun p => "hash:" ++ p

/-- The seeded manager account. -/
def uManager : User :=
  { id := 1, username := "admin", full_name := "Betriebsleiter",
    role := "manager", password_hash := "h1" }

/-- The seeded shift-lead account. -/
def uLead : User :=
  { id := 2, username := "lead", full_name := "Schichtleiter",
    role := "shift_lead", password_hash := "h2" }

/-- The seeded waiter account. -/
def uWaiter : User :=
  { id := 3, username := "waiter", full_name := "Kellner",
    role := "waiter", password_hash := "h3" }

/-- A second manager account. -/
def uManager2 : User :=
  { id := 4, username := "boss2", full_name := "Zweiter Manager",
    role := "manager", password_hash := "h4" }

/-- An account whose role string is outside the three documented values;
such a row is reachable because user creation stores the client-supplied
role verbatim. -/
def uChef : User :=
  { id := 5, username := "chef", full_name := "Koch",
    role := "chef", password_hash := "h5" }

/-- A time entry owned by the seeded waiter. -/
def teWaiter : TimeEntry :=
  { id := 1, user_id := 3, start := 540, «end» := 1020, note := "" }

/-- A deposit held by the seeded waiter. -/
def depWaiter : ClothingDeposit :=
  { id := 1, user_id := 3, item := "Jacke", size := "M", amount := 30,
    date := 86400, returned := false, notes := "" }

/-- The base store: the five sample accounts, one time entry, one
deposit. -/
def db0 : DB :=
  { users := [uManager, uLead, uWaiter, uManager2, uChef],
    shifts := [], reservations := [], reports := [],
    timeEntries := [teWaiter], deposits := [depWaiter],
    nextUserId := 6, nextShiftId := 1, nextResId := 1, nextRepId := 1,
    nextTimeId := 2, nextDepId := 2 }

/-! ## General lemmas -/

/-- A `role_required` gate with an unlisted role flashes and redirects to
the dashboard without calling the handler. -/
theorem role_required_denied (roles : List String) (actor : User)
    (handler : DB → DB × Outcome) (st : DB) (h : actor.role ∉ roles) :
    role_required roles actor handler st =
      (st, .redirect "dashboard" [("error", "Keine Berechtigung.")]) := by
  simp [role_required, h]

/-- A `role_required` gate with a listed role is transparent. -/
theorem role_required_allowed (roles : List String) (actor : User)
    (handler : DB → DB × Outcome) (st : DB) (h : actor.role ∈ roles) :
    role_required roles actor handler st = handler st := by
  simp [role_required, h]

/-- Applying `updateFirst` twice is the identity when `f` is an involution
preserving the predicate on the elements it touches. -/
theorem updateFirst_invol (p : α → Bool) (f : α → α)
    (hpf : ∀ x, p x = true → p (f x) = true)
    (hff : ∀ x, p x = true → f (f x) = x) :
    ∀ l : List α, updateFirst p f (updateFirst p f l) = l
  | [] => rfl
  | x :: xs => by
    by_cases h : p x = true
    · simp [updateFirst, h, hpf x h, hff x h]
    · simp [updateFirst, h, updateFirst_invol p f hpf hff xs]

/-- `find?` after `updateFirst` returns the updated row when `f`
preserves the predicate. -/
theorem find?_updateFirst (p : α → Bool) (f : α → α)
    (hpf : ∀ x, p x = true → p (f x) = true) :
    ∀ l : List α, ∀ d, l.find? p = some d →
      (updateFirst p f l).find? p = some (f d)
  | [], d => by
    intro h
    simp [List.find?] at h
  | x :: xs, d => by
    intro h
    by_cases hx : p x = true
    · rw [List.find?_cons_of_pos _ hx] at h
      cases h
      simp [updateFirst, hx, List.find?_cons_of_pos _ (hpf x hx)]
    · rw [List.find?_cons_of_neg _ hx] at h
      simpa [updateFirst, hx, List.find?_cons_of_neg _ hx]
        using find?_updateFirst p f hpf xs d h

/-! ## Claims -/

/-- **C1.** For every authenticated actor and every TimeEntry create
request whose fields parse: if the actor's role is `waiter`, the creation
succeeds (the entry is appended) exactly when the supplied `user_id`
equals the actor's own id, and otherwise it is denied with a flash and no
row is inserted; if the actor's role is `shift_lead` or `manager`, the
creation succeeds for any supplied `user_id`. -/
theorem c1_timeentry_create_policy
    (fromiso : String → Option Int) (actor : User) (form : Form) (st : DB)
    (uidStr startStr endStr : String) (uid s e : Int)
    (hu : form.get? "user_id" = some uidStr) (hup : pyInt uidStr = some uid)
    (hs : form.get? "start" = some startStr)
    (hsp : fromiso startStr = some s)
    (he : form.get? "end" = some endStr)
    (hep : fromiso endStr = some e) :
    (actor.role = "waiter" →
      (uid = actor.id →
        hours_post fromiso actor form st =
          ({ st with
              timeEntries := st.timeEntries ++
                [{ id := st.nextTimeId, user_id := uid, start := s,
                   «end» := e, note := form.getD "note" "" }],
              nextTimeId := st.nextTimeId + 1 },
           .redirect "hours" [])) ∧
      (uid ≠ actor.id →
        hours_post fromiso actor form st =
          (st, .redirect "hours"
            [("error", "Kellner dürfen nur eigene Stunden eintragen.")]))) ∧
    ((actor.role = "shift_lead" ∨ actor.role = "manager") →
      hours_post fromiso actor form st =
        ({ st with
            timeEntries := st.timeEntries ++
              [{ id := st.nextTimeId, user_id := uid, start := s,
                 «end» := e, note := form.getD "note" "" }],
            nextTimeId := st.nextTimeId + 1 },
         .redirect "hours" [])) := by
  refine ⟨fun hw => ⟨fun heq => ?_, fun hne => ?_⟩, fun hr => ?_⟩
  · simp [hours_post, hu, hup, hs, hsp, he, hep, hw, heq]
  · simp [hours_post, hu, hup, hs, hsp, he, hep, hw, hne]
  · have hnw : actor.role ≠ "waiter" := by
      rcases hr with h | h <;> rw [h] <;> decide
    simp [hours_post, hu, hup, hs, hsp, he, hep, hnw]

/-- Witness for C1: the seeded waiter recording their own hours succeeds;
recording the lead's hours is refused with a flash and no insert. -/
theorem c1_timeentry_create_policy_witness :
    (hours_post fiStd uWaiter
        [("user_id", "3"), ("start", "2024-01-01T09:00"),
         ("end", "2024-01-01T17:00")] db0).2 = .redirect "hours" [] ∧
    hours_post fiStd uWaiter
        [("user_id", "2"), ("start", "2024-01-01T09:00"),
         ("end", "2024-01-01T17:00")] db0 =
      (db0, .redirect "hours"
        [("error", "Kellner dürfen nur eigene Stunden eintragen.")]) := by
  have h1 := c1_timeentry_create_policy fiStd uWaiter
    [("user_id", "3"), ("start", "2024-01-01T09:00"),
     ("end", "2024-01-01T17:00")] db0
    "3" "2024-01-01T09:00" "2024-01-01T17:00" 3 540 1020
    rfl (by decide) rfl rfl rfl rfl
  have h2 := c1_timeentry_create_policy fiStd uWaiter
    [("user_id", "2"), ("start", "2024-01-01T09:00"),
     ("end", "2024-01-01T17:00")] db0
    "2" "2024-01-01T09:00" "2024-01-01T17:00" 2 540 1020
    rfl (by decide) rfl rfl rfl rfl
  refine ⟨?_, (h2.1 rfl).2 (by decide)⟩
  rw [(h1.1 rfl).1 rfl]

/-- **C2 counterexample.** The claim "in every other case the operation
is denied with a user-visible rejection" fails: an actor whose stored
role is outside the three documented values (reachable, since user
creation stores any role string) and who does not own the entry is turned
away with *no* flash at all — the redirect carries an empty message list,
though the store is indeed unchanged. -/
theorem c2_counterexample :
    hours_delete uChef 1 db0 = (db0, .redirect "hours" []) ∧
    db0.timeEntries.find? (fun t => t.id == 1) = some teWaiter ∧
    uChef.role ≠ "shift_lead" ∧ uChef.role ≠ "manager" ∧
    teWaiter.user_id ≠ uChef.id := by
  decide

/-- **C2 (amended).** For every actor and existing TimeEntry, the delete
removes the record iff the actor is shift lead / manager or owns it; in
every other case the stored state is unchanged and the redirect carries a
user-visible rejection when the actor's role is `waiter` (actors with an
unrecognised role are turned away silently). -/
theorem c2_timeentry_delete_policy (actor : User) (id : Int) (st : DB)
    (t : TimeEntry)
    (hf : st.timeEntries.find? (fun x => x.id == id) = some t) :
    ((actor.role = "shift_lead" ∨ actor.role = "manager" ∨
        t.user_id = actor.id) →
      hours_delete actor id st =
        ({ st with
            timeEntries := st.timeEntries.eraseP (fun x => x.id == id) },
         .redirect "hours" [])) ∧
    (actor.role ≠ "shift_lead" → actor.role ≠ "manager" →
      t.user_id ≠ actor.id →
      hours_delete actor id st =
        (st, .redirect "hours"
          (if actor.role = "waiter"
           then [("error", "Kellner dürfen nur eigene Einträge löschen.")]
           else []))) := by
  constructor
  · intro h
    have hcond : actor.role ∈ (["shift_lead", "manager"] : List String) ∨
        t.user_id = actor.id := by
      rcases h with h | h | h
      · exact Or.inl (by rw [h]; decide)
      · exact Or.inl (by rw [h]; decide)
      · exact Or.inr h
    have hnot : ¬ (actor.role = "waiter" ∧ t.user_id ≠ actor.id) := by
      rintro ⟨hw, hne⟩
      rcases h with h | h | h
      · rw [h] at hw; exact absurd hw (by decide)
      · rw [h] at hw; exact absurd hw (by decide)
      · exact hne h
    simp only [hours_delete, hf]
    rw [if_neg hnot, if_pos hcond]
  · intro h1 h2 h3
    have hcond : ¬ (actor.role ∈ (["shift_lead", "manager"] : List String) ∨
        t.user_id = actor.id) := by
      rintro (hm | ho)
      · rcases (by simpa using hm :
            actor.role = "shift_lead" ∨ actor.role = "manager") with h | h
        · exact h1 h
        · exact h2 h
      · exact h3 ho
    simp only [hours_delete, hf]
    by_cases hw : actor.role = "waiter"
    · rw [if_pos ⟨hw, h3⟩, if_pos hw]
    · rw [if_neg (fun hc => hw hc.1), if_neg hcond, if_neg hw]

/-- Witness for C2 (amended): the waiter deleting their own entry
succeeds; the waiter deleting an entry owned by the lead is refused with
a flash and the store kept intact. -/
theorem c2_timeentry_delete_policy_witness :
    hours_delete uWaiter 1 db0 =
      ({ db0 with timeEntries := [] }, .redirect "hours" []) ∧
    hours_delete uWaiter 9
        { db0 with timeEntries :=
            [{ id := 9, user_id := 2, start := 0, «end» := 60, note := "" }] } =
      ({ db0 with timeEntries :=
            [{ id := 9, user_id := 2, start := 0, «end» := 60, note := "" }] },
       .redirect "hours"
         [("error", "Kellner dürfen nur eigene Einträge löschen.")]) := by
  have h1 := c2_timeentry_delete_policy uWaiter 1 db0 teWaiter (by decide)
  have h2 := c2_timeentry_delete_policy uWaiter 9
    { db0 with timeEntries :=
        [{ id := 9, user_id := 2, start := 0, «end» := 60, note := "" }] }
    { id := 9, user_id := 2, start := 0, «end» := 60, note := "" } (by decide)
  constructor
  · rw [h1.1 (Or.inr (Or.inr (by decide)))]
    decide
  · rw [h2.2 (by decide) (by decide) (by decide)]
    decide

/-- **C3 counterexample.** The user-create operation persists whatever
role string the client supplies: a manager submitting role `"chef"`
stores a `User` whose role is outside
`{waiter, shift_lead, manager}`. -/
theorem c3_counterexample :
    ∃ u ∈ (users_route hashStd uManager
        [("username", "neu"), ("password", "pw"), ("role", "chef")]
        db0).1.users,
      u.role ∉ (["waiter", "shift_lead", "manager"] : List String) := by
  decide

/-- **C3 (amended).** The user-create operation performs no validation of
the role: the stored role is exactly the client-supplied string,
defaulting to `"waiter"` when the field is absent — so the three-value
invariant holds only for creates that supply one of those values or omit
the field. -/
theorem c3_user_role_stored_verbatim (pwhash : String → String)
    (actor : User) (form : Form) (st : DB) (username password : String)
    (hu : form.get? "username" = some username)
    (hp : form.get? "password" = some password)
    (hm : actor.role = "manager")
    (hfresh : st.users.any (fun u => u.username == username) = false) :
    users_route pwhash actor form st =
      ({ st with
          users := st.users ++
            [{ id := st.nextUserId, username := username,
               full_name := form.getD "full_name" "",
               role := form.getD "role" "waiter",
               password_hash := pwhash password }],
          nextUserId := st.nextUserId + 1 },
       .redirect "users" []) ∧
    (form.get? "role" = none → form.getD "role" "waiter" = "waiter") := by
  refine ⟨?_, fun h => by simp [Form.getD, h]⟩
  simp [users_route, role_required, hm, users_post, hu, hp, hfresh]

/-- Witness for C3 (amended): creating a user with the role field omitted
stores the in-set default role `"waiter"`. -/
theorem c3_user_role_stored_verbatim_witness :
    users_route hashStd uManager
        [("username", "neu"), ("password", "pw")] db0 =
      ({ db0 with
          users := db0.users ++
            [{ id := 6, username := "neu", full_name := "",
               role := "waiter", password_hash := hashStd "pw" }],
          nextUserId := 7 },
       .redirect "users" []) := by
  have h := c3_user_role_stored_verbatim hashStd uManager
    [("username", "neu"), ("password", "pw")] db0 "neu" "pw"
    rfl rfl rfl (by decide)
  rw [h.1]
  decide

/-- **C4.** The deposit create handler stores the client-supplied
`user_id` without any existence check, contradicting the declared foreign
key: with only users 1–5 in the store, a manager creating a deposit for
`user_id = 99` succeeds and inserts a row whose reference is dangling. -/
theorem c4_dangling_reference_inserted :
    (deposit_route fiStd idDate uManager
        [("user_id", "99"), ("item", "Jacke"), ("date", "2024-02-01")]
        db0).1.deposits.any (fun d => d.user_id == 99) = true ∧
    db0.users.all (fun u => u.id != 99) = true ∧
    (deposit_route fiStd idDate uManager
        [("user_id", "99"), ("item", "Jacke"), ("date", "2024-02-01")]
        db0).2 = .redirect "deposit" [] := by
  decide

/-- **C5.** For every actor, deleting the actor's own `User` record is
always denied with a user-visible rejection and the store is unchanged —
a manager hits the self-delete guard, any other role the role gate; and a
manager deleting any other existing user's record (whatever its role)
succeeds. -/
theorem c5_user_self_delete_denied (actor : User) (id : Int) (st : DB) :
    (id = actor.id →
      (users_delete_route actor id st).1 = st ∧
      (users_delete_route actor id st).2 =
        (if actor.role = "manager"
         then Outcome.redirect "users"
           [("error", "Eigenen Account nicht löschen.")]
         else Outcome.redirect "dashboard"
           [("error", "Keine Berechtigung.")])) ∧
    (actor.role = "manager" → id ≠ actor.id →
      (st.users.find? (fun u => u.id == id)).isSome = true →
      users_delete_route actor id st =
        ({ st with users := st.users.eraseP (fun u => u.id == id) },
         .redirect "users" [])) := by
  constructor
  · intro hid
    by_cases hm : actor.role = "manager"
    · simp [users_delete_route, role_required, hm, users_delete_h, hid]
    · have hmem : actor.role ∉ (["manager"] : List String) := by
        simpa using hm
      rw [users_delete_route, role_required_denied _ _ _ _ hmem]
      simp [hm]
  · intro hm hne hfound
    rcases Option.isSome_iff_exists.mp hfound with ⟨u, hu⟩
    simp [users_delete_route, role_required, hm, users_delete_h, hne, hu]

/-- Witness for C5: the seeded manager cannot delete their own record;
deleting the other manager's record succeeds. -/
theorem c5_user_self_delete_denied_witness :
    (users_delete_route uManager 1 db0).1 = db0 ∧
    (users_delete_route uManager 1 db0).2 =
      .redirect "users" [("error", "Eigenen Account nicht löschen.")] ∧
    users_delete_route uManager 4 db0 =
      ({ db0 with users := [uManager, uLead, uWaiter, uChef] },
       .redirect "users" []) := by
  have h1 := c5_user_self_delete_denied uManager 1 db0
  have h4 := c5_user_self_delete_denied uManager 4 db0
  refine ⟨(h1.1 rfl).1, ?_, ?_⟩
  · rw [(h1.1 rfl).2]
    decide
  · rw [h4.2 rfl (by decide) (by decide)]
    decide

/-- **C6 counterexample.** An unparseable timestamp does not surface as a
notice plus redirect: the shift create aborts with a raw internal error
(the parse exception is never caught), though indeed no row is
inserted. -/
theorem c6_counterexample :
    shifts_post fiStd uLead
      [("employee", "Anna"), ("start", "notadate"),
       ("end", "2024-01-01T17:00")] db0 = (db0, .internalError) := by
  decide

/-- **C6 (amended).** For every create operation whose input contains an
unparseable timestamp field, the operation fails with a raw internal
error — the parse exception is not converted into a notice — and no row
is inserted (the store is returned unchanged). -/
theorem c6_unparseable_timestamp_internal_error
    (fromiso : String → Option Int) (dtDate : Int → Int) (actor : User)
    (form : Form) (st : DB) :
    (∀ emp sStr eStr,
      actor.role ∈ (["shift_lead", "manager"] : List String) →
      form.get? "employee" = some emp →
      form.get? "start" = some sStr → form.get? "end" = some eStr →
      (fromiso sStr = none ∨ fromiso eStr = none) →
      shifts_post fromiso actor form st = (st, .internalError)) ∧
    (∀ cust szStr aStr,
      form.get? "customer" = some cust → form.get? "size" = some szStr →
      form.get? "at" = some aStr → fromiso aStr = none →
      reservations_post fromiso form st = (st, .internalError)) ∧
    (∀ dStr, form.get? "date" = some dStr → fromiso dStr = none →
      reports_post fromiso dtDate actor form st = (st, .internalError)) ∧
    (∀ uidStr uid sStr eStr,
      form.get? "user_id" = some uidStr → pyInt uidStr = some uid →
      ¬ (actor.role = "waiter" ∧ uid ≠ actor.id) →
      form.get? "start" = some sStr → form.get? "end" = some eStr →
      (fromiso sStr = none ∨ fromiso eStr = none) →
      hours_post fromiso actor form st = (st, .internalError)) ∧
    (∀ uidStr item dStr,
      form.get? "user_id" = some uidStr → form.get? "item" = some item →
      form.get? "date" = some dStr → fromiso dStr = none →
      deposit_post fromiso dtDate form st = (st, .internalError)) := by
  refine ⟨?_, ?_, ?_, ?_, ?_⟩
  · intro emp sStr eStr hrole hemp hs hend hbad
    have hor : actor.role = "shift_lead" ∨ actor.role = "manager" := by
      simpa using hrole
    rcases hbad with hbad | hbad
    · cases hE : fromiso eStr <;>
        simp [shifts_post, hemp, hs, hend, hbad, hE] <;> tauto
    · cases hS : fromiso sStr <;>
        simp [shifts_post, hemp, hs, hend, hbad, hS] <;> tauto
  · intro cust szStr aStr hc hsz ha hbad
    cases hV : (if szStr = "" then some 2 else pyInt szStr) <;>
      simp [reservations_post, hc, hsz, ha, hbad, hV]
  · intro dStr hd hbad
    cases hV : (match form.get? "revenue" with
      | none => some (0 : ℚ)
      | some s => if s = "" then some 0 else pyFloat s) <;>
      simp [reports_post, hd, hbad, hV]
  · intro uidStr uid sStr eStr hu hup hok hs he hbad
    rcases hbad with hbad | hbad
    · cases hE : fromiso eStr <;>
        simp [hours_post, hu, hup, hok, hs, he, hbad, hE]
    · cases hS : fromiso sStr <;>
        simp [hours_post, hu, hup, hok, hs, he, hbad, hS]
  · intro uidStr item dStr hu hi hd hbad
    cases hU : pyInt uidStr <;>
      cases hV : (match form.get? "amount" with
        | none => some (0 : ℚ)
        | some s => if s = "" then some 0 else pyFloat s) <;>
      simp [deposit_post, hu, hi, hd, hbad, hU, hV]

/-- Witness for C6 (amended): each create handler aborts with an internal
error, store unchanged, on the unparseable timestamp "notadate". -/
theorem c6_unparseable_timestamp_internal_error_witness :
    shifts_post fiStd uLead
        [("employee", "Anna"), ("start", "notadate"),
         ("end", "2024-01-01T17:00")] db0 = (db0, .internalError) ∧
    reservations_post fiStd
        [("customer", "Smith"), ("size", "4"), ("at", "notadate")] db0 =
      (db0, .internalError) ∧
    reports_post fiStd idDate uLead [("date", "notadate")] db0 =
      (db0, .internalError) ∧
    hours_post fiStd uWaiter
        [("user_id", "3"), ("start", "notadate"),
         ("end", "2024-01-01T17:00")] db0 = (db0, .internalError) ∧
    deposit_post fiStd idDate
        [("user_id", "3"), ("item", "Jacke"), ("date", "notadate")] db0 =
      (db0, .internalError) := by
  have h := c6_unparseable_timestamp_internal_error fiStd idDate uLead
  refine ⟨?_, ?_, ?_, ?_, ?_⟩
  · exact (h [("employee", "Anna"), ("start", "notadate"),
      ("end", "2024-01-01T17:00")] db0).1 "Anna" "notadate"
      "2024-01-01T17:00" (by decide) rfl rfl rfl (Or.inl (by decide))
  · exact (h [("customer", "Smith"), ("size", "4"), ("at", "notadate")]
      db0).2.1 "Smith" "4" "notadate" rfl rfl rfl (by decide)
  · exact (h [("date", "notadate")] db0).2.2.1 "notadate" rfl (by decide)
  · exact ((c6_unparseable_timestamp_internal_error fiStd idDate uWaiter
      [("user_id", "3"), ("start", "notadate"),
       ("end", "2024-01-01T17:00")] db0).2.2.2.1) "3" 3 "notadate"
      "2024-01-01T17:00" rfl (by decide) (by decide) rfl rfl
      (Or.inl (by decide))
  · exact (h [("user_id", "3"), ("item", "Jacke"), ("date", "notadate")]
      db0).2.2.2.2 "3" "Jacke" "notadate" rfl rfl rfl (by decide)

/-- **C7 counterexample.** A reservation create whose input simply omits
the party-size field does not default to 2: `request.form["size"]`
raises, so the operation fails with a raw internal error and nothing is
inserted. -/
theorem c7_counterexample :
    reservations_post fiStd [("customer", "Smith"), ("at", "2024-02-01")]
      db0 = (db0, .internalError) := by
  decide

/-- **C7 (amended).** Revenue and amount default to 0 whenever the field
is absent or blank; party size defaults to 2 only when the field is
present but blank — a create with the party-size field absent fails
instead of defaulting. -/
theorem c7_numeric_defaults (fromiso : String → Option Int)
    (dtDate : Int → Int) (actor : User) (form : Form) (st : DB) :
    (∀ cust aStr atv,
      form.get? "customer" = some cust → form.get? "size" = some "" →
      form.get? "at" = some aStr → fromiso aStr = some atv →
      reservations_post fromiso form st =
        ({ st with
            reservations := st.reservations ++
              [{ id := st.nextResId, customer := cust, size := 2,
                 «at» := atv, notes := form.getD "notes" "" }],
            nextResId := st.nextResId + 1 },
         .redirect "reservations" [])) ∧
    (∀ cust, form.get? "customer" = some cust →
      form.get? "size" = none →
      reservations_post fromiso form st = (st, .internalError)) ∧
    (∀ dStr dt, form.get? "date" = some dStr → fromiso dStr = some dt →
      (form.get? "revenue" = none ∨ form.get? "revenue" = some "") →
      reports_post fromiso dtDate actor form st =
        ({ st with
            reports := st.reports ++
              [{ id := st.nextRepId, date := dtDate dt,
                 lead_id := actor.id, revenue := 0,
                 issues := form.getD "issues" "",
                 notes := form.getD "notes" "" }],
            nextRepId := st.nextRepId + 1 },
         .redirect "reports" [])) ∧
    (∀ uidStr uid item dStr dt,
      form.get? "user_id" = some uidStr → pyInt uidStr = some uid →
      form.get? "item" = some item → form.get? "date" = some dStr →
      fromiso dStr = some dt →
      (form.get? "amount" = none ∨ form.get? "amount" = some "") →
      deposit_post fromiso dtDate form st =
        ({ st with
            deposits := st.deposits ++
              [{ id := st.nextDepId, user_id := uid, item := item,
                 size := form.getD "size" "", amount := 0,
                 date := dtDate dt, returned := form.hasKey "returned",
                 notes := form.getD "notes" "" }],
            nextDepId := st.nextDepId + 1 },
         .redirect "deposit" [])) := by
  refine ⟨?_, ?_, ?_, ?_⟩
  · intro cust aStr atv hc hsz ha hA
    simp [reservations_post, hc, hsz, ha, hA]
  · intro cust hc hsz
    cases hA : form.get? "at" <;>
      simp [reservations_post, hc, hsz, hA]
  · intro dStr dt hd hdt hrev
    rcases hrev with hrev | hrev <;>
      simp [reports_post, hd, hdt, hrev]
  · intro uidStr uid item dStr dt hu hup hi hd hdt hamt
    rcases hamt with hamt | hamt <;>
      simp [deposit_post, hu, hup, hi, hd, hdt, hamt]

/-- Witness for C7 (amended): blank size stores 2; absent revenue and
amount store 0. -/
theorem c7_numeric_defaults_witness :
    reservations_post fiStd
        [("customer", "Smith"), ("size", ""), ("at", "2024-02-01")] db0 =
      ({ db0 with
          reservations :=
            [{ id := 1, customer := "Smith", size := 2, «at» := 86400,
               notes := "" }],
          nextResId := 2 },
       .redirect "reservations" []) ∧
    reports_post fiStd idDate uLead [("date", "2024-02-01")] db0 =
      ({ db0 with
          reports :=
            [{ id := 1, date := 86400, lead_id := 2, revenue := 0,
               issues := "", notes := "" }],
          nextRepId := 2 },
       .redirect "reports" []) ∧
    deposit_post fiStd idDate
        [("user_id", "3"), ("item", "Jacke"), ("date", "2024-02-01"),
         ("amount", "")] db0 =
      ({ db0 with
          deposits := db0.deposits ++
            [{ id := 2, user_id := 3, item := "Jacke", size := "",
               amount := 0, date := 86400, returned := false,
               notes := "" }],
          nextDepId := 3 },
       .redirect "deposit" []) := by
  have h1 := c7_numeric_defaults fiStd idDate uLead
    [("customer", "Smith"), ("size", ""), ("at", "2024-02-01")] db0
  have h2 := c7_numeric_defaults fiStd idDate uLead
    [("date", "2024-02-01")] db0
  have h3 := c7_numeric_defaults fiStd idDate uLead
    [("user_id", "3"), ("item", "Jacke"), ("date", "2024-02-01"),
     ("amount", "")] db0
  refine ⟨?_, ?_, ?_⟩
  · rw [h1.1 "Smith" "2024-02-01" 86400 rfl rfl rfl (by decide)]
    decide
  · rw [h2.2.2.1 "2024-02-01" 86400 rfl (by decide) (Or.inl rfl)]
    decide
  · rw [h3.2.2.2 "3" 3 "Jacke" "2024-02-01" 86400 rfl (by decide) rfl rfl
      (by decide) (Or.inr rfl)]
    decide

/-- **C8 counterexample.** A denial from the shared role gate does not
return the caller to the originating list page: a waiter posting a
reservation is flashed and redirected to the dashboard, not to the
reservations list. -/
theorem c8_counterexample :
    reservations_route fiStd uWaiter
      [("customer", "Smith"), ("size", "4"), ("at", "2024-02-01")] db0 =
      (db0, .redirect "dashboard" [("error", "Keine Berechtigung.")]) := by
  decide

/-- **C8 (amended).** Every operation denied by the access policy leaves
the store completely unchanged and redirects to a safe view: role-gate
denials flash and land on the dashboard, inline denials land on the
originating list page — with a notice, except that the hours delete turns
away an actor of unrecognised role silently. -/
theorem c8_denied_operations_no_mutation (fromiso : String → Option Int)
    (actor : User) (form : Form) (st : DB) (id : Int) :
    (∀ roles handler, actor.role ∉ roles →
      role_required roles actor handler st =
        (st, .redirect "dashboard" [("error", "Keine Berechtigung.")])) ∧
    (actor.role ∉ (["shift_lead", "manager"] : List String) →
      shifts_post fromiso actor form st =
        (st, .redirect "shifts"
          [("error",
            "Nur Schichtleitung/Manager dürfen Schichten anlegen.")])) ∧
    (∀ uidStr uid,
      form.get? "user_id" = some uidStr → pyInt uidStr = some uid →
      actor.role = "waiter" → uid ≠ actor.id →
      hours_post fromiso actor form st =
        (st, .redirect "hours"
          [("error", "Kellner dürfen nur eigene Stunden eintragen.")])) ∧
    (∀ t, st.timeEntries.find? (fun x => x.id == id) = some t →
      t.user_id ≠ actor.id →
      actor.role ∉ (["shift_lead", "manager"] : List String) →
      hours_delete actor id st =
        (st, .redirect "hours"
          (if actor.role = "waiter"
           then [("error", "Kellner dürfen nur eigene Einträge löschen.")]
           else []))) ∧
    (users_delete_h actor actor.id st =
      (st, .redirect "users" [("error", "Eigenen Account nicht löschen.")])) := by
  refine ⟨?_, ?_, ?_, ?_, ?_⟩
  · intro roles handler h
    exact role_required_denied roles actor handler st h
  · intro h
    simp [shifts_post, h]
  · intro uidStr uid hu hup hw hne
    simp [hours_post, hu, hup, hw, hne]
  · intro t hf hne hrole
    have hcond : ¬ (actor.role ∈ (["shift_lead", "manager"] : List String) ∨
        t.user_id = actor.id) := by
      rintro (hm | ho)
      · exact hrole hm
      · exact hne ho
    simp only [hours_delete, hf]
    by_cases hw : actor.role = "waiter"
    · rw [if_pos ⟨hw, hne⟩, if_pos hw]
    · rw [if_neg (fun hc => hw hc.1), if_neg hcond, if_neg hw]
  · simp [users_delete_h]

/-- Witness for C8 (amended): each denial path at a concrete input. -/
theorem c8_denied_operations_no_mutation_witness :
    role_required ["manager"] uWaiter (fun s => (s, .notFound)) db0 =
      (db0, .redirect "dashboard" [("error", "Keine Berechtigung.")]) ∧
    shifts_post fiStd uWaiter [("employee", "Anna")] db0 =
      (db0, .redirect "shifts"
        [("error",
          "Nur Schichtleitung/Manager dürfen Schichten anlegen.")]) ∧
    hours_post fiStd uWaiter [("user_id", "2")] db0 =
      (db0, .redirect "hours"
        [("error", "Kellner dürfen nur eigene Stunden eintragen.")]) ∧
    hours_delete uChef 1 db0 = (db0, .redirect "hours" []) ∧
    users_delete_h uManager 1 db0 =
      (db0, .redirect "users" [("error", "Eigenen Account nicht löschen.")]) := by
  have hW := c8_denied_operations_no_mutation fiStd uWaiter
    [("user_id", "2")] db0 1
  have hC := c8_denied_operations_no_mutation fiStd uChef
    [("user_id", "2")] db0 1
  have hM := c8_denied_operations_no_mutation fiStd uManager
    [("user_id", "2")] db0 1
  have hWs := c8_denied_operations_no_mutation fiStd uWaiter
    [("employee", "Anna")] db0 1
  refine ⟨hW.1 ["manager"] (fun s => (s, .notFound)) (by decide),
    hWs.2.1 (by decide),
    hW.2.2.1 "2" 2 rfl (by decide) rfl (by decide), ?_, hM.2.2.2.2⟩
  rw [hC.2.2.2.1 teWaiter (by decide) (by decide) (by decide)]
  decide

/-- **C9 counterexample.** The Users list is *not* ordered by role
descending then username ascending: with a manager named "admin" and a
waiter named "waiter" in the store, the `/users` query returns them in
username order, which violates the claimed role-major ordering. -/
theorem c9_counterexample :
    ¬ List.Pairwise teamRel
      (users_list { db0 with users := [uManager, uWaiter] }) := by
  decide

/-- **C9 (amended).** Every list operation returns its records ordered by
the designated field descending (most recent first), except the Team
list, which orders by role descending then username ascending, and the
Users list and the user drop-downs on the hours and deposit pages, which
order by username ascending. -/
theorem c9_list_ordering (st : DB) (actor : User) :
    ((team_list st).Sorted teamRel ∧ List.Perm (team_list st) st.users) ∧
    ((shifts_list st).Sorted (descBy Shift.start) ∧
      List.Perm (shifts_list st) st.shifts) ∧
    ((reservations_list st).Sorted (descBy Reservation.«at») ∧
      List.Perm (reservations_list st) st.reservations) ∧
    ((reports_list st).Sorted (descBy ShiftReport.date) ∧
      List.Perm (reports_list st) st.reports) ∧
    (hours_list actor st).Sorted (descBy TimeEntry.start) ∧
    (hours_users actor st).Sorted (ascByStr User.username) ∧
    ((deposit_list st).Sorted (descBy ClothingDeposit.date) ∧
      List.Perm (deposit_list st) st.deposits) ∧
    ((deposit_users st).Sorted (ascByStr User.username) ∧
      List.Perm (deposit_users st) st.users) ∧
    ((users_list st).Sorted (ascByStr User.username) ∧
      List.Perm (users_list st) st.users) := by
  refine ⟨⟨List.sorted_insertionSort _ _, List.perm_insertionSort _ _⟩,
    ⟨List.sorted_insertionSort _ _, List.perm_insertionSort _ _⟩,
    ⟨List.sorted_insertionSort _ _, List.perm_insertionSort _ _⟩,
    ⟨List.sorted_insertionSort _ _, List.perm_insertionSort _ _⟩,
    ?_, ?_,
    ⟨List.sorted_insertionSort _ _, List.perm_insertionSort _ _⟩,
    ⟨List.sorted_insertionSort _ _, List.perm_insertionSort _ _⟩,
    ⟨List.sorted_insertionSort _ _, List.perm_insertionSort _ _⟩⟩
  · unfold hours_list
    split <;> exact List.sorted_insertionSort _ _
  · unfold hours_users
    split
    · exact List.sorted_singleton _
    · exact List.sorted_insertionSort _ _

/-- **C10.** The deposit toggle is restricted to managers — any other
role is turned away at the gate with the store unchanged — and for a
manager, toggling the same deposit twice returns the store to exactly its
original state, while a single toggle on an existing deposit flips that
record's `returned` flag in place. -/
theorem c10_deposit_toggle (actor : User) (id : Int) (st : DB) :
    (actor.role = "manager" →
      (deposit_toggle_route actor id
        (deposit_toggle_route actor id st).1).1 = st ∧
      (∀ d, st.deposits.find? (fun x => x.id == id) = some d →
        deposit_toggle_route actor id st =
          ({ st with
              deposits := updateFirst (fun x => x.id == id)
                (fun x => { x with returned := !x.returned })
                st.deposits },
           .redirect "deposit" []))) ∧
    (actor.role ≠ "manager" →
      deposit_toggle_route actor id st =
        (st, .redirect "dashboard" [("error", "Keine Berechtigung.")])) := by
  constructor
  · intro hm
    have hroute : ∀ s, deposit_toggle_route actor id s =
        deposit_toggle_h id s := by
      intro s
      exact role_required_allowed _ _ _ _ (by simp [hm])
    constructor
    · simp only [hroute]
      cases hfind : st.deposits.find? (fun x => x.id == id) with
      | none =>
        simp [deposit_toggle_h, hfind]
      | some d =>
        have h2 := find?_updateFirst (fun x => x.id == id)
          (fun x => { x with returned := !x.returned })
          (fun x hx => hx) st.deposits d hfind
        have hInv := updateFirst_invol (fun x => x.id == id)
          (fun x => { x with returned := !x.returned })
          (fun x hx => hx) (fun x _ => by cases x; simp) st.deposits
        simp [deposit_toggle_h, hfind, h2, hInv]
    · intro d hd
      rw [hroute]
      simp [deposit_toggle_h, hd]
  · intro hm
    exact role_required_denied _ _ _ _ (by simpa using hm)

/-- Witness for C10: the manager double-toggling deposit 1 restores the
store; a single toggle sets `returned`; the waiter is turned away. -/
theorem c10_deposit_toggle_witness :
    (deposit_toggle_route uManager 1
      (deposit_toggle_route uManager 1 db0).1).1 = db0 ∧
    deposit_toggle_route uManager 1 db0 =
      ({ db0 with deposits := [{ depWaiter with returned := true }] },
       .redirect "deposit" []) ∧
    deposit_toggle_route uWaiter 1 db0 =
      (db0, .redirect "dashboard" [("error", "Keine Berechtigung.")]) := by
  have hM := c10_deposit_toggle uManager 1 db0
  have hW := c10_deposit_toggle uWaiter 1 db0
  refine ⟨(hM.1 rfl).1, ?_, hW.2 (by decide)⟩
  rw [(hM.1 rfl).2 depWaiter (by decide)]
  decide

end Bistro
